import Mathlib

/-!
Shallow embedding of the tenant-resolution and isolation core of the
`tms` repository (Django, `src/tenants`, `src/accounts`, `src/core`).

Conventions of the embedding:
* database rows are Lean structures; tables are `List`s of rows;
* primary keys (UUIDs in the source) are modelled as `Nat`;
* Django's `Model.objects.get(...)`, which is backed by unique
  constraints, is modelled by `List.find?` over the table;
* `None`/exception outcomes are `Option`/`Except`/explicit result
  constructors;
* the thread-local scoped execution context
  (`tenants/middleware.py` `_thread_locals`) is an explicit
  `ThreadLocals` value passed and returned.
-/

namespace TMS

/-- A row of the `tenants` table (`src/tenants/models.py`, class `Tenant`).
Only the columns consulted by the resolution / membership / record-base
logic are carried: `id`, `slug` and `is_active`.  (Display columns such as
`name`, `plan`, contact fields play no role in any modelled operation.) -/
structure Tenant where
  id : Nat
  slug : String
  is_active : Bool
deriving Repr, DecidableEq

/-- A row of the `tenant_users` table (`src/tenants/models.py`, class
`TenantUser`): the membership of `user` in `tenant`.  `permissions` is the
ad-hoc permission list (JSON list of strings in the source). -/
structure TenantUser where
  id : Nat
  user : Nat
  tenant : Nat
  role : String
  is_owner : Bool
  permissions : List String
  is_active : Bool
  invited_by : Option Nat
deriving Repr, DecidableEq

/-- The authenticated principal (`src/accounts/models.py`, class
`CustomUser`).  Django's `AnonymousUser` is represented by
`is_authenticated = false`.  `current_tenant` is the FK column holding the
user's last-selected tenant id (nullable). -/
structure CustomUser where
  id : Nat
  email : String
  is_authenticated : Bool
  is_superuser : Bool
  current_tenant : Option Nat
deriving Repr, DecidableEq

/-- The slice of database state the resolver and membership checks read. -/
structure DB where
  tenants : List Tenant
  memberships : List TenantUser
deriving Repr, DecidableEq

/-- `TenantUser.get_permissions` (`src/tenants/models.py` lines 129-139):
the fixed role→base-permissions table unioned with the membership's ad-hoc
permission list.  The source computes `list(set(base + self.permissions))`;
`List.dedup` realises the same set of elements. -/
def TenantUser.get_permissions (m : TenantUser) : List String :=
  let base_permissions : List String :=
    if m.role == "owner" then ["all"]
    else if m.role == "admin" then ["read", "write", "delete", "invite"]
    else if m.role == "manager" then ["read", "write", "invite"]
    else if m.role == "user" then ["read", "write"]
    else if m.role == "viewer" then ["read"]
    else []
  (base_permissions ++ m.permissions).dedup

/-- `CustomUser.has_tenant_permission` (`src/accounts/models.py` lines
78-98): superusers always pass; otherwise look up the active membership of
the user in the tenant (unique on (user, tenant)); with a specific
permission requested, test literal membership in `get_permissions`;
without one, any active membership suffices. -/
def CustomUser.has_tenant_permission (db : DB) (u : CustomUser)
    (t : Tenant) (permission : Option String) : Bool :=
  if u.is_superuser then
    true
  else
    match db.memberships.find?
        (fun m => m.user == u.id && m.tenant == t.id && m.is_active) with
    | some membership =>
        match permission with
        | some p => membership.get_permissions.contains p
        | none => true
    | none => false

/-! ### Request context resolver (`src/tenants/middleware.py`)

Python's `str.split`, `str.lower` and `str.startswith` — standard-library
collaborators of the middleware, not repository logic — are modelled by
the structurally recursive helpers below so that every definition is
kernel-executable. -/

/-- `str.split(sep)` on the character list, accumulating the current
segment; like Python, adjacent separators yield empty segments and the
result is never empty. -/
def splitCharsOn (sep : Char) : List Char → List Char → List (List Char)
  | [], acc => [acc.reverse]
  | c :: cs, acc =>
      if c == sep then acc.reverse :: splitCharsOn sep cs []
      else splitCharsOn sep cs (c :: acc)

/-- Python `s.split(sep)` for a one-character separator. -/
def strSplitOn (s : String) (sep : Char) : List String :=
  (splitCharsOn sep s.data []).map (fun cs => ⟨cs⟩)

/-- Python `s.lower()`. -/
def strToLower (s : String) : String := ⟨s.data.map Char.toLower⟩

/-- Whether the first character list begins with the second. -/
def charsBeginWith : List Char → List Char → Bool
  | _, [] => true
  | [], _ :: _ => false
  | c :: cs, p :: ps => c == p && charsBeginWith cs ps

/-- Python `s.startswith(p)`. -/
def strBeginsWith (s p : String) : Bool := charsBeginWith s.data p.data

/-- The inbound request descriptor consumed by `TenantMiddleware`.
`header_tenant_id` is `request.META["HTTP_X_TENANT_ID"]`,
`session_tenant_id` is `request.session["tenant_id"]` (both absent ↦
`none`; ids are stored as the string form of the tenant id, modelled
directly as the id).  An unauthenticated request carries Django's
`AnonymousUser`, modelled as a `CustomUser` with
`is_authenticated = false`. -/
structure HttpRequest where
  host : String
  path : String
  header_tenant_id : Option Nat
  session_tenant_id : Option Nat
  user : CustomUser
deriving Repr, DecidableEq

/-- `TenantMiddleware.get_tenant_from_subdomain`: take the hostname
(before any `:port`), lower-cased; if it has more than two dot-separated
labels and the leftmost is not reserved, look up an active tenant by that
slug. -/
def get_tenant_from_subdomain (db : DB) (req : HttpRequest) : Option Tenant :=
  let hostname := strToLower ((strSplitOn req.host ':').headD "")
  let parts := strSplitOn hostname '.'
  if parts.length > 2 then
    let subdomain := parts.headD ""
    if !(["www", "api", "admin", "static"].contains subdomain) then
      db.tenants.find? (fun t => t.slug == subdomain && t.is_active)
    else
      none
  else
    none

/-- `TenantMiddleware.get_tenant_from_header`: look up an active tenant by
the id carried in the `X-Tenant-ID` header, if present. -/
def get_tenant_from_header (db : DB) (req : HttpRequest) : Option Tenant :=
  match req.header_tenant_id with
  | some tenant_id => db.tenants.find? (fun t => t.id == tenant_id && t.is_active)
  | none => none

/-- `TenantMiddleware.get_tenant_from_session` (lines 120-130): look up an
active tenant by the id stored in the session; when the id no longer
resolves to an active tenant (`Tenant.DoesNotExist`), the stale
`tenant_id` key is deleted from the session.  Returns the resolved tenant
together with the session value after the call. -/
def get_tenant_from_session (db : DB) (session_tenant_id : Option Nat) :
    Option Tenant × Option Nat :=
  match session_tenant_id with
  | some tenant_id =>
      match db.tenants.find? (fun t => t.id == tenant_id && t.is_active) with
      | some t => (some t, session_tenant_id)
      | none => (none, none)
  | none => (none, session_tenant_id)

/-- `TenantMiddleware.get_tenant_from_user`: dereference the user's
`current_tenant` foreign key.  The source returns the referenced `Tenant`
row as-is — there is no `is_active` filter on this path. -/
def get_tenant_from_user (db : DB) (req : HttpRequest) : Option Tenant :=
  match req.user.current_tenant with
  | some tenant_id => db.tenants.find? (fun t => t.id == tenant_id)
  | none => none

/-- `TenantMiddleware.get_tenant` (lines 69-90): the ordered,
short-circuiting strategy chain — subdomain, then header, then (for
authenticated users) session, then the user's `current_tenant`.  The
second component is the session `tenant_id` value after resolution
(strategy 3 may delete it). -/
def get_tenant (db : DB) (req : HttpRequest) : Option Tenant × Option Nat :=
  match get_tenant_from_subdomain db req with
  | some t => (some t, req.session_tenant_id)
  | none =>
    match get_tenant_from_header db req with
    | some t => (some t, req.session_tenant_id)
    | none =>
      if req.user.is_authenticated then
        match get_tenant_from_session db req.session_tenant_id with
        | (some t, session') => (some t, session')
        | (none, session') =>
          match get_tenant_from_user db req with
          | some t => (some t, session')
          | none => (none, session')
      else
        (none, req.session_tenant_id)

/-- `TenantMiddleware.is_public_route`: the fixed allow-list of public
path prefixes. -/
def is_public_route (req : HttpRequest) : Bool :=
  ["/auth/login/", "/auth/register/", "/auth/logout/",
   "/invitations/accept/", "/api/health/"].any
    (fun p => strBeginsWith req.path p)

/-- The thread-local scoped execution context (`_thread_locals` in
`src/tenants/middleware.py`): at most one current tenant and one current
user. -/
structure ThreadLocals where
  tenant : Option Tenant
  user : Option CustomUser
deriving Repr, DecidableEq

/-- `TenantMiddleware.clear_thread_locals`: both keys deleted. -/
def clear_thread_locals : ThreadLocals := ⟨none, none⟩

/-- How one pass through `TenantMiddleware.__call__` ends: a normal
response, a `PermissionDenied` raised by `validate_tenant_access`, or an
exception propagating out of `self.get_response(request)`. -/
inductive MwOutcome where
  | response
  | permissionDenied
  | handlerException
deriving Repr, DecidableEq

/-- `TenantMiddleware.validate_tenant_access` (lines 139-145): raises
`PermissionDenied` (`true` here) iff the user lacks membership in the
tenant and the route is not public. -/
def validate_tenant_access (db : DB) (req : HttpRequest) (t : Tenant) : Bool :=
  !(req.user.has_tenant_permission db t none) && !(is_public_route req)

/-- `TenantMiddleware.__call__` (lines 41-67), as a function from the
thread-local state at entry to the outcome and the thread-local state
after the call returns or raises.  `handlerRaises` abstracts whether
`self.get_response(request)` raises.  Faithful control flow: thread
locals are cleared first; the resolved tenant is stored; for an
authenticated non-superuser, `validate_tenant_access` may raise (the
`raise` propagates out of `__call__`, so the trailing
`clear_thread_locals` is *not* executed); likewise an exception from
`get_response` propagates with no clearing; only the normal-return path
clears the thread locals at the end. -/
def middleware_call (db : DB) (req : HttpRequest) (handlerRaises : Bool)
    (_entry : ThreadLocals) : MwOutcome × ThreadLocals :=
  let tl0 := clear_thread_locals
  let downstream : ThreadLocals → MwOutcome × ThreadLocals := fun tl =>
    let tl' := if req.user.is_authenticated then { tl with user := some req.user } else tl
    if handlerRaises then
      (.handlerException, tl')
    else
      (.response, clear_thread_locals)
  match (get_tenant db req).fst with
  | some t =>
      let tl1 : ThreadLocals := { tl0 with tenant := some t }
      if req.user.is_authenticated && !req.user.is_superuser
          && validate_tenant_access db req t then
        (.permissionDenied, tl1)
      else
        downstream tl1
  | none => downstream tl0

/-! ### Tenant-scoped record base (`src/core/models.py`) -/

/-- The columns of the abstract `TenantAwareModel` relevant to the save /
queryset logic: primary key (`none` before first insert — `self.pk`),
nullable owning-tenant FK, and creator/updater stamps. -/
structure TSRecord where
  pk : Option Nat
  tenant : Option Nat
  created_by : Option Nat
  updated_by : Option Nat
deriving Repr, DecidableEq

/-- The error raised by `TenantAwareModel.save` when no tenant is
resolvable and no bypass is passed (a `ValueError` with message
"Cannot save ... without tenant context." in the source). -/
inductive SaveError where
  | missingTenantContext
deriving Repr, DecidableEq

/-- The keyword arguments `TenantAwareModel.save` consults:
`kwargs.get("force_insert")` and `kwargs.get("skip_tenant_check")`. -/
structure SaveKwargs where
  force_insert : Bool
  skip_tenant_check : Bool
deriving Repr, DecidableEq

/-- `TenantAwareModel.save` (`src/core/models.py` lines 78-109): if the
record has no tenant, pull the current tenant from the thread-local
context; if none is there either, raise unless `force_insert` or
`skip_tenant_check` was passed; then stamp `created_by` (new records
only) and `updated_by` from the thread-local current user when that user
is authenticated. -/
def tenantAwareSave (rec : TSRecord) (kwargs : SaveKwargs)
    (tl : ThreadLocals) : Except SaveError TSRecord :=
  let step1 : Except SaveError TSRecord :=
    if rec.tenant = none then
      match tl.tenant with
      | some t => .ok { rec with tenant := some t.id }
      | none =>
          if !kwargs.force_insert && !kwargs.skip_tenant_check then
            .error .missingTenantContext
          else
            .ok rec
    else
      .ok rec
  match step1 with
  | .error e => .error e
  | .ok r1 =>
      match tl.user with
      | some u =>
          if u.is_authenticated then
            let r2 := if r1.pk = none && r1.created_by = none then
                        { r1 with created_by := some u.id }
                      else r1
            let r3 := if r2.updated_by = none then
                        { r2 with updated_by := some u.id }
                      else r2
            .ok r3
          else
            .ok r1
      | none => .ok r1

/-- `TenantAwareManager.get_queryset` (`src/core/models.py` lines 14-26):
filter the base queryset by the thread-local current tenant when one is
set; otherwise return the base queryset unchanged. -/
def get_queryset (objs : List TSRecord) (current : Option Tenant) :
    List TSRecord :=
  match current with
  | some t => objs.filter (fun r => r.tenant == some t.id)
  | none => objs

/-! ### Membership store (`src/tenants/models.py`, `src/tenants/views.py`) -/

/-- `Tenant.add_member` (`src/tenants/models.py` lines 75-82):
`TenantUser.objects.get_or_create(tenant=self, user=user, defaults=...)`.
The lookup keys are exactly (tenant, user); `role`, `is_owner` and
`invited_by` are applied only on creation.  `fresh_id` stands for the new
row's generated primary key.  Returns the membership together with the
table after the call. -/
def Tenant.add_member (db : List TenantUser) (t : Tenant) (u : CustomUser)
    (role : String) (is_owner : Bool) (invited_by : Option Nat)
    (fresh_id : Nat) : TenantUser × List TenantUser :=
  match db.find? (fun m => m.tenant == t.id && m.user == u.id) with
  | some membership => (membership, db)
  | none =>
      let membership : TenantUser :=
        { id := fresh_id, user := u.id, tenant := t.id, role := role,
          is_owner := is_owner, permissions := [], is_active := true,
          invited_by := invited_by }
      (membership, db ++ [membership])

/-- At most one membership row per (user, tenant) pair — the
`unique_together = ["user", "tenant"]` constraint of `tenant_users`. -/
def pairUnique (db : List TenantUser) : Prop :=
  db.Pairwise (fun a b => ¬(a.user = b.user ∧ a.tenant = b.tenant))

/-- Outcome of the `remove_member` view. -/
inductive RemoveResult where
  | removed
  | refusedLastOwner
  | deniedNotOwner
  | deniedNotMember
  | memberNotFound
  | confirmPage
deriving Repr, DecidableEq

/-- `remove_member` (`src/tenants/views.py` lines 281-327), acting on the
membership table.  The requesting user must hold an active membership in
the tenant and be an owner; the target membership is fetched by id within
the tenant; if the target is an owner and no *other* active owner exists,
the removal is refused ("Cannot remove the last owner of the tenant") and
nothing changes; otherwise a POST deactivates the target
(`is_active = False`) and a GET renders the confirmation page.  Returns
the outcome and the table after the call. -/
def remove_member (db : List TenantUser) (requester : CustomUser)
    (t : Tenant) (member_id : Nat) (is_post : Bool) :
    RemoveResult × List TenantUser :=
  match db.find? (fun m => m.user == requester.id && m.tenant == t.id && m.is_active) with
  | none => (.deniedNotMember, db)
  | some my_membership =>
      if !my_membership.is_owner then
        (.deniedNotOwner, db)
      else
        match db.find? (fun m => m.id == member_id && m.tenant == t.id) with
        | none => (.memberNotFound, db)
        | some member =>
            if member.is_owner
                && !(db.any (fun m => m.tenant == t.id && m.is_owner
                      && m.is_active && m.id != member.id)) then
              (.refusedLastOwner, db)
            else if is_post then
              (.removed,
               db.map (fun m => if m.id == member.id then { m with is_active := false } else m))
            else
              (.confirmPage, db)

/-! ### Invitation engine (`src/tenants/models.py`, `src/tenants/views.py`) -/

/-- `TenantUser.ROLE_CHOICES` (`src/tenants/models.py` lines 87-93). -/
def TenantUser.ROLE_CHOICES : List (String × String) :=
  [("owner", "Owner"), ("admin", "Administrator"), ("manager", "Manager"),
   ("user", "User"), ("viewer", "Viewer")]

/-- `TenantInvitation.ROLE_CHOICES` (`src/tenants/models.py` line 145):
`TenantUser.ROLE_CHOICES[:1]` — the leading one-element slice (the
adjacent source comment reads "Exclude 'owner' role from invitations"). -/
def TenantInvitation.ROLE_CHOICES : List (String × String) :=
  TenantUser.ROLE_CHOICES.take 1

/-- Django's choices validation as run by `invitation.full_clean()` in the
`invite_user` view: the proposed role must be one of the keys of
`TenantInvitation.ROLE_CHOICES`. -/
def invitation_role_valid (role : String) : Bool :=
  (TenantInvitation.ROLE_CHOICES.map Prod.fst).contains role

/-- The role choices the `invite_user` view offers in its form context
(`src/tenants/views.py`: `context["roles"] = TenantUser.ROLE_CHOICES[1:]`). -/
def invite_view_roles : List (String × String) :=
  TenantUser.ROLE_CHOICES.drop 1

/-- A row of `tenant_invitations` (`src/tenants/models.py`, class
`TenantInvitation`).  Timestamps are modelled as `Nat` instants. -/
structure Invitation where
  id : Nat
  tenant : Nat
  invited_by : Nat
  email : String
  role : String
  expires_at : Nat
  accepted_at : Option Nat
  accepted_by : Option Nat
deriving Repr, DecidableEq

/-- `TenantInvitation.is_valid`: pending (never accepted) and not yet
expired (`expires_at > timezone.now()`). -/
def Invitation.is_valid (inv : Invitation) (now : Nat) : Bool :=
  inv.accepted_at == none && now < inv.expires_at

/-- The database state touched by invitation acceptance: the invitation
row and the membership table. -/
structure AcceptState where
  invitation : Invitation
  memberships : List TenantUser
deriving Repr, DecidableEq

/-- The individual database writes `TenantInvitation.accept` issues, in
order: `self.save()` after stamping `accepted_at`/`accepted_by`, then
`TenantUser.objects.create(...)`. -/
inductive DBWrite where
  | stampAcceptance (time : Nat) (userId : Nat)
  | createMembership (m : TenantUser)
deriving Repr, DecidableEq

/-- Apply one committed write to the state. -/
def applyWrite (s : AcceptState) (w : DBWrite) : AcceptState :=
  match w with
  | .stampAcceptance time userId =>
      { s with invitation :=
          { s.invitation with accepted_at := some time, accepted_by := some userId } }
  | .createMembership m => { s with memberships := s.memberships ++ [m] }

/-- Errors invitation acceptance can raise: the two `ValueError`s of
`TenantInvitation.accept` and the storage-layer uniqueness violation
(`unique_together ["user", "tenant"]`) that `TenantUser.objects.create`
hits when a membership row — active or soft-deleted — already exists for
the pair. -/
inductive AcceptError where
  | invalid
  | emailMismatch
  | integrityError
deriving Repr, DecidableEq

/-- `TenantInvitation.accept` (`src/tenants/models.py` lines 220-238) as
the ordered write log it attempts plus the error it raises, if any:
validity and email checks first (no writes); then the acceptance stamp is
saved; then the membership row is created — a step that fails with a
uniqueness violation when a row for (user, tenant) already exists, *after*
the stamp write was already issued. -/
def Invitation.accept (s : AcceptState) (u : CustomUser) (now : Nat)
    (fresh_id : Nat) : List DBWrite × Option AcceptError :=
  if !(s.invitation.is_valid now) then
    ([], some .invalid)
  else if u.email != s.invitation.email then
    ([], some .emailMismatch)
  else
    let stamp := DBWrite.stampAcceptance now u.id
    if s.memberships.any (fun m => m.user == u.id && m.tenant == s.invitation.tenant) then
      ([stamp], some .integrityError)
    else
      let m : TenantUser :=
        { id := fresh_id, user := u.id, tenant := s.invitation.tenant,
          role := s.invitation.role, is_owner := false, permissions := [],
          is_active := true, invited_by := some s.invitation.invited_by }
      ([stamp, .createMembership m], none)

/-- The `accept_invitation` view (`src/tenants/views.py` lines 246-275):
re-checks validity and the email match, then runs `invitation.accept`
inside `with transaction.atomic()` — on success every write in the block
commits; on any exception inside the block all of its writes are rolled
back, so the pre-call state is what remains observable.  Returns the
observable state after the request together with the error, if any. -/
def accept_invitation (s : AcceptState) (u : CustomUser) (now : Nat)
    (fresh_id : Nat) : AcceptState × Option AcceptError :=
  if !(s.invitation.is_valid now) then
    (s, some .invalid)
  else if u.email != s.invitation.email then
    (s, some .emailMismatch)
  else
    match Invitation.accept s u now fresh_id with
    | (writes, none) => (writes.foldl applyWrite s, none)
    | (_, some e) => (s, some e)

/-! ### Theorems -/

/-- Claim C9 (code_bug evaluation): the invitation model's role choices do
not exclude "owner" — `TenantUser.ROLE_CHOICES[:1]` keeps exactly the
first entry, which *is* "owner", so the choice list attached to
`TenantInvitation` is `[("owner", "Owner")]`; consequently the choices
validation run by `invite_user`'s `full_clean()` accepts a proposed role
of "owner" and rejects every other role, while the same view's form
context (`ROLE_CHOICES[1:]`) offers every role except "owner".  This
contradicts the source's own comment ("Exclude 'owner' role from
invitations") and the spec. -/
theorem invitation_role_choices_are_owner_only :
    TenantInvitation.ROLE_CHOICES = [("owner", "Owner")]
    ∧ ("owner", "Owner") ∈ TenantInvitation.ROLE_CHOICES
    ∧ invitation_role_valid "owner" = true
    ∧ invitation_role_valid "manager" = false
    ∧ invite_view_roles = [("admin", "Administrator"), ("manager", "Manager"),
        ("user", "User"), ("viewer", "Viewer")] := by
  decide

/-- Claim C3 (code_bug evaluation): an active, non-superuser owner whose
membership carries no ad-hoc permissions is *denied* the specific
permissions "read", "write" and "invite" — `has_tenant_permission` tests
literal membership of the requested string in `get_permissions()`, and an
owner's effective set is exactly `["all"]`, which is never expanded as a
wildcard.  Only the literal string "all" (and the no-permission membership
check) passes. -/
theorem owner_wildcard_not_expanded :
    let db : DB := ⟨[⟨1, "acme", true⟩], [⟨5, 10, 1, "owner", true, [], true, none⟩]⟩
    let u : CustomUser := ⟨10, "o@x.com", true, false, some 1⟩
    let t : Tenant := ⟨1, "acme", true⟩
    (⟨5, 10, 1, "owner", true, [], true, none⟩ : TenantUser).get_permissions = ["all"]
    ∧ u.has_tenant_permission db t (some "read") = false
    ∧ u.has_tenant_permission db t (some "write") = false
    ∧ u.has_tenant_permission db t (some "invite") = false
    ∧ u.has_tenant_permission db t (some "all") = true
    ∧ u.has_tenant_permission db t none = true := by
  decide

/-- Claim C2 (code_bug evaluation): `TenantMiddleware.__call__` has no
try/finally around request handling, so the scoped execution context is
*not* cleared on error paths.  Concretely: (1) when membership validation
rejects an authenticated non-superuser (no membership, non-public path),
`PermissionDenied` propagates after `set_current_tenant` ran, leaving the
tenant in thread-local storage; (2) when the downstream handler raises,
both tenant and user remain set; (3) only the normal path ends cleared. -/
theorem middleware_context_leaks_on_error_paths :
    (middleware_call ⟨[⟨1, "acme", true⟩], []⟩
        ⟨"acme.example.com", "/dashboard/", none, none, ⟨10, "u@x.com", true, false, none⟩⟩
        false ⟨none, none⟩
      = (.permissionDenied, ⟨some ⟨1, "acme", true⟩, none⟩))
    ∧ (middleware_call ⟨[⟨1, "acme", true⟩], [⟨5, 10, 1, "user", false, [], true, none⟩]⟩
        ⟨"acme.example.com", "/dashboard/", none, none, ⟨10, "u@x.com", true, false, none⟩⟩
        true ⟨none, none⟩
      = (.handlerException,
         ⟨some ⟨1, "acme", true⟩, some ⟨10, "u@x.com", true, false, none⟩⟩))
    ∧ (middleware_call ⟨[⟨1, "acme", true⟩], [⟨5, 10, 1, "user", false, [], true, none⟩]⟩
        ⟨"acme.example.com", "/dashboard/", none, none, ⟨10, "u@x.com", true, false, none⟩⟩
        false ⟨none, none⟩
      = (.response, ⟨none, none⟩)) := by
  decide

/-- Claim C1 counterexample: the fourth strategy does not check the
`is_active` flag.  On a request with a two-label host (no subdomain
match), no header, no session, and an authenticated user whose
`current_tenant` references the *inactive* tenant 1, none of the four
strategies yields an active tenant — yet the resolver selects that
inactive tenant, refuting "the first strategy that yields an active
tenant wins" as stated. -/
theorem get_tenant_selects_inactive_current_tenant :
    let db : DB := ⟨[⟨1, "acme", false⟩], []⟩
    let req : HttpRequest :=
      ⟨"example.com", "/dashboard/", none, none, ⟨10, "u@x.com", true, false, some 1⟩⟩
    get_tenant_from_subdomain db req = none
    ∧ get_tenant_from_header db req = none
    ∧ (get_tenant_from_session db req.session_tenant_id).fst = none
    ∧ get_tenant db req = (some ⟨1, "acme", false⟩, none)
    ∧ (⟨1, "acme", false⟩ : Tenant).is_active = false := by
  decide

/-- Claim C4 counterexample: passing Django's standard `force_insert=True`
keyword (which `Model.objects.create()` passes implicitly) with no tenant
on the record and no thread-local tenant makes the save succeed with the
tenant left unset — the `MissingTenantContext` failure is silently
bypassed through a path other than the deliberately-named
`skip_tenant_check` flag. -/
theorem save_force_insert_bypasses_tenant_check :
    tenantAwareSave ⟨none, none, none, none⟩ ⟨true, false⟩ ⟨none, none⟩
      = .ok ⟨none, none, none, none⟩ := rfl

/-- Claim C10 (confirmed): `TenantAwareManager.get_queryset` with no
current tenant in the scoped execution context returns the base queryset
completely unfiltered — every record of every tenant, not an empty result
or an error; when a current tenant is present, the result is exactly the
records of that tenant. -/
theorem get_queryset_unfiltered_without_current_tenant :
    ∀ (objs : List TSRecord),
      get_queryset objs none = objs
      ∧ ∀ (t : Tenant) (r : TSRecord),
          (r ∈ get_queryset objs (some t) ↔ r ∈ objs ∧ r.tenant = some t.id) := by
  intro objs
  refine ⟨rfl, ?_⟩
  intro t r
  simp [get_queryset, List.mem_filter]

/-- Claim C1 (amended): the resolver tries its strategies in the fixed
order subdomain, header, session, user's last-selected tenant, and the
first strategy that yields a tenant wins; in particular, whenever the
subdomain strategy yields tenant A — necessarily active — the resolver
selects A no matter what the header strategy would yield, so subdomain A
beats header B. -/
theorem get_tenant_subdomain_precedes_header :
    ∀ (db : DB) (req : HttpRequest) (A B : Tenant),
      get_tenant_from_subdomain db req = some A →
      get_tenant_from_header db req = some B →
      (get_tenant db req).fst = some A ∧ A.is_active = true := by
  intro db req A B hs _hh
  constructor
  · unfold get_tenant
    rw [hs]
  · simp only [get_tenant_from_subdomain] at hs
    split at hs
    · split at hs
      · have hp := List.find?_some hs
        simp only [Bool.and_eq_true] at hp
        exact hp.2
      · exact absurd hs (by simp)
    · exact absurd hs (by simp)

/-- Witness for C1's amended theorem: tenant 1 "acme" resolved from the
subdomain wins over tenant 2 "beta" named by the X-Tenant-ID header. -/
theorem get_tenant_subdomain_precedes_header_witness :
    (get_tenant ⟨[⟨1, "acme", true⟩, ⟨2, "beta", true⟩], []⟩
        ⟨"acme.example.com", "/dashboard/", some 2, none,
         ⟨0, "", false, false, none⟩⟩).fst = some ⟨1, "acme", true⟩
    ∧ (⟨1, "acme", true⟩ : Tenant).is_active = true :=
  get_tenant_subdomain_precedes_header
    ⟨[⟨1, "acme", true⟩, ⟨2, "beta", true⟩], []⟩
    ⟨"acme.example.com", "/dashboard/", some 2, none, ⟨0, "", false, false, none⟩⟩
    ⟨1, "acme", true⟩ ⟨2, "beta", true⟩ (by decide) (by decide)

/-- Claim C7 (confirmed): when the session holds a tenant id that no
longer resolves to an active tenant, and the earlier strategies yielded
nothing, resolution falls through to the user's-current-tenant strategy
(the stale tenant is not selected) and the stale session key is deleted
as a side effect. -/
theorem stale_session_cleanup :
    ∀ (db : DB) (req : HttpRequest) (tid : Nat),
      req.session_tenant_id = some tid →
      (∀ t ∈ db.tenants, t.id = tid → t.is_active = false) →
      get_tenant_from_subdomain db req = none →
      get_tenant_from_header db req = none →
      req.user.is_authenticated = true →
      (get_tenant db req).snd = none
      ∧ (get_tenant db req).fst = get_tenant_from_user db req := by
  intro db req tid hsess hstale hsub hhdr hauth
  have hfind : db.tenants.find? (fun t => t.id == tid && t.is_active) = none := by
    rw [List.find?_eq_none]
    intro t ht hp
    simp only [Bool.and_eq_true, beq_iff_eq] at hp
    have := hstale t ht hp.1
    rw [this] at hp
    exact Bool.false_ne_true hp.2
  simp only [get_tenant, hsub, hhdr, hauth, get_tenant_from_session, hsess, hfind,
    if_true]
  cases hu : get_tenant_from_user db req <;> simp [hu]

/-- Witness for C7: a session pointing at the deactivated tenant 1 is
cleared and resolution ends with the user's (absent) current tenant. -/
theorem stale_session_cleanup_witness :
    (get_tenant ⟨[⟨1, "acme", false⟩], []⟩
        ⟨"example.com", "/dashboard/", none, some 1,
         ⟨10, "u@x.com", true, false, none⟩⟩).snd = none
    ∧ (get_tenant ⟨[⟨1, "acme", false⟩], []⟩
        ⟨"example.com", "/dashboard/", none, some 1,
         ⟨10, "u@x.com", true, false, none⟩⟩).fst
      = get_tenant_from_user ⟨[⟨1, "acme", false⟩], []⟩
          ⟨"example.com", "/dashboard/", none, some 1,
           ⟨10, "u@x.com", true, false, none⟩⟩ :=
  stale_session_cleanup ⟨[⟨1, "acme", false⟩], []⟩
    ⟨"example.com", "/dashboard/", none, some 1, ⟨10, "u@x.com", true, false, none⟩⟩
    1 rfl (by decide) (by decide) (by decide) rfl

/-- Claim C4 (amended): a new record with no tenant set, saved with the
scoped execution context empty, fails with `MissingTenantContext` *unless*
the caller passes `skip_tenant_check` — or Django's standard
`force_insert` keyword, an additional silent bypass; under either flag
the save succeeds with the tenant left unset. -/
theorem save_missing_tenant_context_amended :
    ∀ (rec : TSRecord) (kwargs : SaveKwargs),
      rec.tenant = none →
      ((kwargs.force_insert = false ∧ kwargs.skip_tenant_check = false
          ∧ tenantAwareSave rec kwargs ⟨none, none⟩ = .error .missingTenantContext)
       ∨ ((kwargs.force_insert = true ∨ kwargs.skip_tenant_check = true)
          ∧ tenantAwareSave rec kwargs ⟨none, none⟩ = .ok rec)) := by
  intro rec kwargs hrec
  cases hf : kwargs.force_insert <;> cases hs : kwargs.skip_tenant_check
  · exact Or.inl ⟨rfl, rfl, by simp [tenantAwareSave, hrec, hf, hs]⟩
  · exact Or.inr ⟨Or.inr rfl, by simp [tenantAwareSave, hrec, hf, hs]⟩
  · exact Or.inr ⟨Or.inl rfl, by simp [tenantAwareSave, hrec, hf, hs]⟩
  · exact Or.inr ⟨Or.inl rfl, by simp [tenantAwareSave, hrec, hf, hs]⟩

/-- Witness for C4's amended theorem: the deliberately-named
`skip_tenant_check` bypass makes the tenant-less save succeed with the
tenant still unset. -/
theorem save_missing_tenant_context_amended_witness :
    ((false = false ∧ true = false
        ∧ tenantAwareSave ⟨none, none, none, none⟩ ⟨false, true⟩ ⟨none, none⟩
          = .error .missingTenantContext)
     ∨ ((false = true ∨ true = true)
        ∧ tenantAwareSave ⟨none, none, none, none⟩ ⟨false, true⟩ ⟨none, none⟩
          = .ok ⟨none, none, none, none⟩)) :=
  save_missing_tenant_context_amended ⟨none, none, none, none⟩ ⟨false, true⟩ rfl

/-- Claim C5 (confirmed): `remove_member`, applied by an owner to the
membership that is the tenant's last active owner, refuses the removal
("Cannot remove the last owner of the tenant"), leaves the membership
table — hence the still-active target membership — untouched, on GET and
POST alike. -/
theorem remove_member_last_owner_refused :
    ∀ (db : List TenantUser) (requester : CustomUser) (t : Tenant)
      (member_id : Nat) (is_post : Bool) (rq member : TenantUser),
      db.find? (fun m => m.user == requester.id && m.tenant == t.id && m.is_active)
        = some rq →
      rq.is_owner = true →
      db.find? (fun m => m.id == member_id && m.tenant == t.id) = some member →
      member.is_owner = true →
      member.is_active = true →
      (∀ m ∈ db, m.tenant = t.id → m.is_owner = true → m.is_active = true →
        m.id = member.id) →
      remove_member db requester t member_id is_post = (.refusedLastOwner, db)
      ∧ member ∈ db := by
  intro db requester t member_id is_post rq member hrq hrqo hm hmo hma hlast
  have hany : db.any
      (fun m => m.tenant == t.id && m.is_owner && m.is_active && m.id != member.id)
      = false := by
    rw [List.any_eq_false]
    intro m hmem hp
    simp only [Bool.and_eq_true, beq_iff_eq, bne_iff_ne] at hp
    exact hp.2 (hlast m hmem hp.1.1.1 hp.1.1.2 hp.1.2)
  refine ⟨?_, List.mem_of_find?_eq_some hm⟩
  unfold remove_member
  rw [hrq]
  simp only [hrqo, Bool.not_true, Bool.false_eq_true, if_false]
  rw [hm]
  simp [hmo, hma, hany]

/-- Witness for C5: the sole active owner of tenant 1 cannot be removed,
even by themselves via POST. -/
theorem remove_member_last_owner_refused_witness :
    remove_member [⟨1, 10, 1, "owner", true, [], true, none⟩]
      ⟨10, "o@x.com", true, false, some 1⟩ ⟨1, "acme", true⟩ 1 true
      = (.refusedLastOwner, [⟨1, 10, 1, "owner", true, [], true, none⟩])
    ∧ (⟨1, 10, 1, "owner", true, [], true, none⟩ : TenantUser)
        ∈ [(⟨1, 10, 1, "owner", true, [], true, none⟩ : TenantUser)] :=
  remove_member_last_owner_refused [⟨1, 10, 1, "owner", true, [], true, none⟩]
    ⟨10, "o@x.com", true, false, some 1⟩ ⟨1, "acme", true⟩ 1 true
    ⟨1, 10, 1, "owner", true, [], true, none⟩ ⟨1, 10, 1, "owner", true, [], true, none⟩
    (by decide) rfl (by decide) rfl rfl (by decide)

/-- Claim C6 (confirmed): invitation acceptance, as executed by the
`accept_invitation` view (which wraps `TenantInvitation.accept` in
`transaction.atomic()`), is all-or-nothing: either it succeeds, the
acceptance fields are stamped and an active membership with the
invitation's role exists for the accepting user in the invited tenant,
or it raises — including when the membership-creation step itself hits
the (user, tenant) uniqueness violation after the stamp write was already
issued — and the observable invitation/membership state is exactly the
pre-call state. -/
theorem accept_invitation_atomic :
    ∀ (s : AcceptState) (u : CustomUser) (now fresh_id : Nat),
      ((accept_invitation s u now fresh_id).snd = none
        ∧ (accept_invitation s u now fresh_id).fst.invitation.accepted_at = some now
        ∧ (accept_invitation s u now fresh_id).fst.invitation.accepted_by = some u.id
        ∧ ∃ m, m ∈ (accept_invitation s u now fresh_id).fst.memberships
            ∧ m.user = u.id ∧ m.tenant = s.invitation.tenant
            ∧ m.role = s.invitation.role ∧ m.is_active = true)
      ∨ ((accept_invitation s u now fresh_id).snd.isSome = true
        ∧ (accept_invitation s u now fresh_id).fst = s) := by
  intro s u now fresh_id
  by_cases hv : s.invitation.is_valid now = true
  · by_cases he : u.email = s.invitation.email
    · by_cases hex : s.memberships.any
          (fun m => m.user == u.id && m.tenant == s.invitation.tenant) = true
      · right
        simp [accept_invitation, Invitation.accept, hv, he, hex]
      · left
        have hres : accept_invitation s u now fresh_id
            = (⟨{ s.invitation with accepted_at := some now, accepted_by := some u.id },
                s.memberships ++
                  [⟨fresh_id, u.id, s.invitation.tenant, s.invitation.role, false, [],
                    true, some s.invitation.invited_by⟩]⟩, none) := by
          simp [accept_invitation, Invitation.accept, hv, he, hex, applyWrite,
            List.foldl_cons, List.foldl_nil]
        rw [hres]
        refine ⟨rfl, rfl, rfl, ?_⟩
        refine ⟨⟨fresh_id, u.id, s.invitation.tenant, s.invitation.role, false, [],
          true, some s.invitation.invited_by⟩, ?_, rfl, rfl, rfl, rfl⟩
        simp
    · right
      simp [accept_invitation, hv, he]
  · right
    simp [accept_invitation, hv]

/-- Claim C8 (confirmed): `Tenant.add_member` has get-or-create semantics
on the (user, tenant) pair — a second call for the same pair, with any
role/ownership arguments, returns the very membership the first call
produced and leaves the table unchanged — and it preserves the
at-most-one-membership-per-pair invariant. -/
theorem add_member_idempotent :
    ∀ (db : List TenantUser) (t : Tenant) (u : CustomUser)
      (role₁ : String) (own₁ : Bool) (inv₁ : Option Nat) (f₁ : Nat)
      (role₂ : String) (own₂ : Bool) (inv₂ : Option Nat) (f₂ : Nat),
      pairUnique db →
      Tenant.add_member (Tenant.add_member db t u role₁ own₁ inv₁ f₁).snd
          t u role₂ own₂ inv₂ f₂
        = Tenant.add_member db t u role₁ own₁ inv₁ f₁
      ∧ pairUnique (Tenant.add_member db t u role₁ own₁ inv₁ f₁).snd := by
  intro db t u role₁ own₁ inv₁ f₁ role₂ own₂ inv₂ f₂ huniq
  cases hfind : db.find? (fun m => m.tenant == t.id && m.user == u.id) with
  | some m =>
      constructor
      · simp [Tenant.add_member, hfind]
      · simpa [Tenant.add_member, hfind] using huniq
  | none =>
      have hfst : (Tenant.add_member db t u role₁ own₁ inv₁ f₁)
          = (⟨f₁, u.id, t.id, role₁, own₁, [], true, inv₁⟩,
             db ++ [⟨f₁, u.id, t.id, role₁, own₁, [], true, inv₁⟩]) := by
        simp [Tenant.add_member, hfind]
      rw [hfst]
      constructor
      · have happ : (db ++ [(⟨f₁, u.id, t.id, role₁, own₁, [], true, inv₁⟩ : TenantUser)]).find?
            (fun m => m.tenant == t.id && m.user == u.id)
            = some ⟨f₁, u.id, t.id, role₁, own₁, [], true, inv₁⟩ := by
          rw [List.find?_append, hfind]
          simp
        simp [Tenant.add_member, happ]
      · rw [pairUnique, List.pairwise_append]
        refine ⟨huniq, List.pairwise_singleton _ _, ?_⟩
        intro a ha b hb
        simp only [List.mem_singleton] at hb
        subst hb
        have hnp := (List.find?_eq_none.mp hfind) a ha
        simp only [Bool.and_eq_true, beq_iff_eq] at hnp
        rintro ⟨hu', ht'⟩
        exact hnp ⟨ht', hu'⟩

/-- Witness for C8: adding user 10 to tenant 1 twice over an empty table
yields the same membership row both times and a table satisfying the
uniqueness invariant. -/
theorem add_member_idempotent_witness :
    Tenant.add_member (Tenant.add_member [] ⟨1, "acme", true⟩
          ⟨10, "u@x.com", true, false, none⟩ "user" false none 7).snd
        ⟨1, "acme", true⟩ ⟨10, "u@x.com", true, false, none⟩ "admin" true (some 3) 8
      = Tenant.add_member [] ⟨1, "acme", true⟩
          ⟨10, "u@x.com", true, false, none⟩ "user" false none 7
    ∧ pairUnique (Tenant.add_member [] ⟨1, "acme", true⟩
          ⟨10, "u@x.com", true, false, none⟩ "user" false none 7).snd :=
  add_member_idempotent [] ⟨1, "acme", true⟩ ⟨10, "u@x.com", true, false, none⟩
    "user" false none 7 "admin" true (some 3) 8 (List.Pairwise.nil)

end TMS
